import Mathlib

/-!
Shallow embedding of lumail's folder store (`src/maildir.cc`, class
`CMaildir`).  The filesystem, the directory scanner (`CDirectory`), the
file helpers (`CFile`), the message classifier (`CMessage::is_new`) and the
clock/random source consulted by `generate_filename` are external
collaborators; they are modelled as explicit environments (`FS`, `GenEnv`)
passed to each operation.  Mutation of the `CMaildir` object is modelled by
returning the updated record.
-/

/-- A `CMessage` as the folder store sees it: a reference to one stored
message, carrying only its path (`message.cc` is out of scope; the
classification `is_new` is supplied by the environment). -/
structure CMessage where
  path : String
deriving DecidableEq

/-- The member state of `CMaildir`: the path, the IMAP flag, and the three
cache fields.  `m_total` and `m_unread` are int members that the C++
constructor leaves uninitialized; they are therefore ordinary fields here,
and the constructor model below takes their indeterminate initial contents
as parameters. -/
structure CMaildir where
  m_path : String
  m_imap : Bool
  m_modified : Int
  m_total : Int
  m_unread : Int
deriving DecidableEq

/-- The filesystem and helper collaborators: `stat` modification times
(`none` models a failing `stat`; a successful one yields a nonnegative
`time_t`), `CDirectory::entries`, `CFile::is_directory`, `CFile::is_maildir`,
`CFile::exists`, the success of `CFile::copy`, and `CMessage::is_new` as a
predicate on the message path. -/
structure FS where
  statMtime : String → Option Nat
  entries : String → List String
  is_directory : String → Bool
  is_maildir : String → Bool
  fileExists : String → Bool
  copyOk : String → String → Bool
  is_new : String → Bool

/-- The clock and random source read inside `generate_filename`'s loop:
`timeAt k` is what `time(NULL)` returns on the loop's `k`-th iteration, and
`randAt k` what `rand()` returns there (the code then takes it `% 1000`). -/
structure GenEnv where
  timeAt : Nat → Nat
  randAt : Nat → Nat

/-- The constructor `CMaildir::CMaildir(name, is_local)`: it assigns
`m_path = name`, `m_imap = !is_local` and `m_modified = -1`, and assigns
nothing to `m_total`/`m_unread`; the parameters `total0`/`unread0` model the
indeterminate values those members happen to hold. -/
def CMaildir.init (name : String) (is_local : Bool) (total0 unread0 : Int) : CMaildir :=
  { m_path := name
    m_imap := if is_local then false else true
    m_modified := -1
    m_total := total0
    m_unread := unread0 }

/-- `CMaildir::path()`. -/
def CMaildir.path (m : CMaildir) : String :=
  m.m_path

/-- `CMaildir::last_modified()`: for an IMAP folder, the stored
`m_modified`; otherwise the fold over the two directories `cur` and `new`,
starting from `last = 0` and taking each statable mtime that is greater
than the running value. -/
def CMaildir.last_modified (fs : FS) (m : CMaildir) : Int :=
  if m.m_imap then m.m_modified
  else
    let p := m.path
    let dirs := [p ++ "/cur", p ++ "/new"]
    dirs.foldl
      (fun last dir =>
        match fs.statMtime dir with
        | some t => if (t : Int) > last then (t : Int) else last
        | none => last)
      0

/-- `CMaildir::getMessages()`: for each of `cur/` and `new/`, list the
entries and push one message per entry that is not a directory. -/
def CMaildir.getMessages (fs : FS) (m : CMaildir) : List CMessage :=
  let dirs := [m.m_path ++ "/cur/", m.m_path ++ "/new/"]
  dirs.foldl
    (fun result path =>
      (fs.entries path).foldl
        (fun result file =>
          if ! fs.is_directory file then result ++ [⟨file⟩] else result)
        result)
    []

/-- `CMaildir::update_cache()`: nothing for IMAP folders; for a local
folder, rescan only when `last_modified()` differs from `m_modified`, and
then store the new mtime, the message count and the count of new
messages. -/
def CMaildir.update_cache (fs : FS) (m : CMaildir) : CMaildir :=
  if m.m_imap then m
  else
    let last_mod := CMaildir.last_modified fs m
    if last_mod = m.m_modified then m
    else
      let all := CMaildir.getMessages fs m
      { m with
          m_modified := last_mod
          m_total := (all.length : Int)
          m_unread := ((all.filter fun message => fs.is_new message.path).length : Int) }

/-- `update_cache` instrumented with the number of directory scans it
performs (the number of times it invokes `getMessages`), for the
scan-counting properties; the state component is exactly
`CMaildir.update_cache`. -/
def CMaildir.update_cacheScans (fs : FS) (m : CMaildir) : CMaildir × Nat :=
  (CMaildir.update_cache fs m,
    if m.m_imap then 0
    else if CMaildir.last_modified fs m = m.m_modified then 0
    else 1)

/-- `CMaildir::unread_messages()`: `update_cache(); return m_unread` —
the returned value, the post-state, and the number of scans performed. -/
def CMaildir.unread_messages (fs : FS) (m : CMaildir) : Int × CMaildir × Nat :=
  let r := CMaildir.update_cacheScans fs m
  (r.1.m_unread, r.1, r.2)

/-- `CMaildir::total_messages()`: `update_cache(); return m_total` —
the returned value, the post-state, and the number of scans performed. -/
def CMaildir.total_messages (fs : FS) (m : CMaildir) : Int × CMaildir × Nat :=
  let r := CMaildir.update_cacheScans fs m
  (r.1.m_total, r.1, r.2)

/-- One candidate filename of `generate_filename`'s loop body, from the
drawn time `t` and raw random value `r0`.  The code writes the epoch
seconds into a stringstream, keeps `since_epoch = ss.str()`, builds
`file = since_epoch + "." + hostname`, then does `ss << r; file += ss.str()`
— the stream still holds the epoch digits, so this appends
`since_epoch ++ toString r`, not just the random digits — and finally
appends `":2"` and `",N"` or `",S"`. -/
def mkFilename (host : String) (is_new : Bool) (t r0 : Nat) : String :=
  let since_epoch := toString t
  let file := since_epoch ++ "." ++ host
  let r := r0 % 1000
  let file := file ++ (since_epoch ++ toString r)
  let file := file ++ ":2"
  if is_new then file ++ ",N" else file ++ ",S"

/-- The `while (true)` uniqueness loop of `generate_filename`, with fuel:
on iteration `k` it draws `env.timeAt k` and `env.randAt k`, and returns
`dir ++ file` as soon as the candidate does not exist.  `none` means the
fuel ran out before a free name was found (the C++ loop would still be
running). -/
def genLoop (fs : FS) (env : GenEnv) (host dir : String) (is_new : Bool) :
    Nat → Nat → Option String
  | 0, _ => none
  | fuel + 1, k =>
    let file := mkFilename host is_new (env.timeAt k) (env.randAt k)
    if fs.fileExists (dir ++ file) then genLoop fs env host dir is_new fuel (k + 1)
    else some (dir ++ file)

/-- `CMaildir::generate_filename(is_new)`: empty string when the path is
not a maildir; otherwise the loop over candidates under `new/` or `cur/`. -/
def CMaildir.generate_filename (fs : FS) (env : GenEnv) (host : String)
    (m : CMaildir) (is_new : Bool) (fuel : Nat) : Option String :=
  if ! fs.is_maildir m.path then some ""
  else
    let dir := m.path ++ (if is_new then "/new/" else "/cur/")
    genLoop fs env host dir is_new fuel 0

/-- `CMaildir::saveMessage(msg)`: the routing test
`m_imap || (!m_path.empty() && m_path.at(0) != '/')`; on the remote branch
it sends `save_message <msgpath> <folder>\n` to the IMAP proxy and returns
true, leaving the object untouched; on the local branch it copies the
message to `generate_filename(false)`.  The result is the returned boolean,
the list of command lines sent to the proxy, and the post-state; `none`
models the local branch's filename loop not terminating within the fuel. -/
def CMaildir.saveMessage (fs : FS) (env : GenEnv) (host : String)
    (m : CMaildir) (msg : CMessage) (fuel : Nat) :
    Option (Bool × List String × CMaildir) :=
  if m.m_imap = true ∨ (m.m_path ≠ "" ∧ m.m_path.front ≠ '/') then
    let msg_path := msg.path
    let folder := m.m_path
    let cmd := "save_message " ++ msg_path ++ " " ++ folder ++ "\n"
    some (true, [cmd], m)
  else
    match CMaildir.generate_filename fs env host m false fuel with
    | none => none
    | some p => some (fs.copyOk msg.path p, [], m)

/-- `CMaildir::bump_mtime()`: `m_modified += 1`, with no test of the IMAP
flag. -/
def CMaildir.bump_mtime (m : CMaildir) : CMaildir :=
  { m with m_modified := m.m_modified + 1 }

/-! ### Concrete environments used by witnesses and counterexamples -/

/-- A filesystem in which every path passes the maildir check and no
candidate filename exists yet (the first generated name is free). -/
def fsGen : FS :=
  { statMtime := fun _ => none
    entries := fun _ => []
    is_directory := fun _ => false
    is_maildir := fun _ => true
    fileExists := fun _ => false
    copyOk := fun _ _ => true
    is_new := fun _ => false }

/-- A clock/random source that always draws time 100 and raw random 5. -/
def envGen : GenEnv :=
  { timeAt := fun _ => 100
    randAt := fun _ => 5 }

/-- A small concrete filesystem for the folder `/m`: `cur` and `new` have
mtimes 5 and 7, each holds the two directory markers and one regular
message file, and `/m/new/msg2` is classified new. -/
def fsA : FS :=
  { statMtime := fun d => if d = "/m/cur" then some 5 else if d = "/m/new" then some 7 else none
    entries := fun p =>
      if p = "/m/cur/" then ["/m/cur/.", "/m/cur/..", "/m/cur/msg1"]
      else if p = "/m/new/" then ["/m/new/.", "/m/new/..", "/m/new/msg2"]
      else []
    is_directory := fun f =>
      (f == "/m/cur/.") || (f == "/m/cur/..") || (f == "/m/new/.") || (f == "/m/new/..")
    is_maildir := fun p => p == "/m"
    fileExists := fun _ => false
    copyOk := fun _ _ => true
    is_new := fun f => f == "/m/new/msg2" }

/-- The local folder `/m` with the constructor's sentinel cache. -/
def mA : CMaildir := CMaildir.init "/m" true 0 0

/-- A remote folder as the constructor builds it (cache sentinel `-1`). -/
def mRemoteB : CMaildir := CMaildir.init "INBOX" false 7 3

/-- A local folder with a populated cache, for the `bump_mtime` frame
counterexample. -/
def mLocal9 : CMaildir :=
  { m_path := "/home/u/Maildir", m_imap := false, m_modified := 5, m_total := 2, m_unread := 1 }

/-- A local folder whose cache already matches the disk mtime of `/m`
under `fsA` (a cache hit). -/
def mHitA : CMaildir :=
  { m_path := "/m", m_imap := false, m_modified := 7, m_total := 9, m_unread := 9 }

/-- A local folder whose `cur`/`new` subdirectories cannot be stat'ed
under `fsA`. -/
def mNoDirs : CMaildir := CMaildir.init "/x" true 0 0

/-- A local folder whose path fails `fsA`'s maildir validity check. -/
def mNotMaildir : CMaildir := CMaildir.init "/not" true 0 0

/-- The spec's name template of section 4.5, read literally: the name is
`<seconds-since-epoch>.<hostname><random-0..999>:2,<flag>` with flag `N`
when new and `S` otherwise, for the time `t` at which the name was
generated.  This definition follows the spec's words, to be compared with
the names the code actually builds. -/
def specNameTemplate (t : Nat) (host : String) (is_new : Bool) (name : String) : Prop :=
  ∃ r : Nat, r < 1000 ∧
    name = toString t ++ "." ++ host ++ toString r ++ ":2," ++ (if is_new then "N" else "S")

/-- One operation of the folder store, for iterating arbitrary operation
sequences over a folder. -/
inductive MOp where
  | update : MOp
  | bump : MOp
  | unreadQ : MOp
  | totalQ : MOp
  | save : CMessage → Nat → MOp

/-- The state transition of one store operation (queries keep their
post-state; a save that runs out of fuel keeps the pre-state, as the C++
loop would never have returned). -/
def applyOp (fs : FS) (env : GenEnv) (host : String) (m : CMaildir) : MOp → CMaildir
  | MOp.update => CMaildir.update_cache fs m
  | MOp.bump => CMaildir.bump_mtime m
  | MOp.unreadQ => (CMaildir.unread_messages fs m).2.1
  | MOp.totalQ => (CMaildir.total_messages fs m).2.1
  | MOp.save msg fuel =>
    match CMaildir.saveMessage fs env host m msg fuel with
    | some out => out.2.2
    | none => m

/-- Running a sequence of store operations from left to right. -/
def runOps (fs : FS) (env : GenEnv) (host : String) (m : CMaildir) (ops : List MOp) : CMaildir :=
  ops.foldl (applyOp fs env host) m

/-! ### C1 — saveMessage routing -/

/-- C1: `saveMessage` routes to the remote backend if and only if the
folder was constructed remote or its path is non-empty and does not begin
with `/`; and for a folder constructed with path `"myfolder"` and
`is_local = true`, it takes the remote path and sends exactly
`save_message <msgpath> myfolder\n` to the proxy, returning true with the
folder state untouched. -/
theorem C1_saveMessage_routing (fs : FS) (env : GenEnv) (host : String)
    (fuel : Nat) (msg : CMessage) (m : CMaildir) :
    ((∃ out, CMaildir.saveMessage fs env host m msg fuel = some out ∧ out.2.1 ≠ []) ↔
      (m.m_imap = true ∨ (m.m_path ≠ "" ∧ m.m_path.front ≠ '/'))) ∧
    (∀ total0 unread0 : Int,
      CMaildir.saveMessage fs env host (CMaildir.init "myfolder" true total0 unread0) msg fuel =
        some (true, ["save_message " ++ msg.path ++ " " ++ "myfolder" ++ "\n"],
          CMaildir.init "myfolder" true total0 unread0)) := by
  constructor
  · constructor
    · rintro ⟨out, hout, hne⟩
      by_contra h
      rw [CMaildir.saveMessage, if_neg h] at hout
      cases hgen : CMaildir.generate_filename fs env host m false fuel with
      | none => rw [hgen] at hout; exact Option.noConfusion hout
      | some p =>
        rw [hgen] at hout
        cases hout
        exact hne rfl
    · intro h
      rw [CMaildir.saveMessage, if_pos h]
      exact ⟨_, rfl, by simp⟩
  · intro total0 unread0
    rw [CMaildir.saveMessage, if_pos]
    · rfl
    · right
      refine ⟨?_, ?_⟩
      · show ("myfolder" : String) ≠ ""
        decide
      · show ("myfolder" : String).front ≠ '/'
        decide

/-! ### C2 — the remote save path and the cache -/

/-- C2: evaluation of the code at the failing input.  A remote folder is
constructed (its `m_modified` is the sentinel `-1`); `saveMessage` on the
remote path returns true and sends the proxy command, but the post-state is
the pre-state unchanged — `m_modified` is still `-1`, not strictly greater,
because the save path never calls `bump_mtime`. -/
theorem C2_remote_save_leaves_mtime :
    CMaildir.saveMessage fsA envGen "host" mRemoteB ⟨"/tmp/msg"⟩ 1 =
      some (true, ["save_message /tmp/msg INBOX\n"], mRemoteB) ∧
    mRemoteB.m_modified = -1 := by
  constructor
  · rw [CMaildir.saveMessage, if_pos] <;> first | rfl | exact Or.inl rfl
  · rfl

/-! ### C9 — bump_mtime has no locality guard -/

/-- C9 counterexample: on the local folder `mLocal9`, `bump_mtime` does not
leave the state unchanged — it increments `m_modified` there too. -/
theorem C9_counterexample :
    mLocal9.m_imap = false ∧ CMaildir.bump_mtime mLocal9 ≠ mLocal9 := by
  constructor
  · rfl
  · intro h
    have : (CMaildir.bump_mtime mLocal9).m_modified = mLocal9.m_modified := by rw [h]
    simp [CMaildir.bump_mtime] at this

/-- C9 amended: `bump_mtime` increments `m_modified` by exactly one unit on
every folder, local or remote alike, and changes no other field. -/
theorem C9_bump_unconditional (m : CMaildir) :
    (CMaildir.bump_mtime m).m_modified = m.m_modified + 1 ∧
    (CMaildir.bump_mtime m).m_path = m.m_path ∧
    (CMaildir.bump_mtime m).m_imap = m.m_imap ∧
    (CMaildir.bump_mtime m).m_total = m.m_total ∧
    (CMaildir.bump_mtime m).m_unread = m.m_unread :=
  ⟨rfl, rfl, rfl, rfl, rfl⟩

/-! ### C3 — update_cache policy -/

/-- C3: `update_cache` is a no-op for remote folders; for a local folder,
when `last_modified()` equals the cached `m_modified` the whole state is
unchanged (no rescan), and otherwise `m_modified` is set to the fresh value,
`m_total` to the size of the enumeration, and `m_unread` to the number of
enumerated messages classified new, with the path and locality flag
untouched. -/
theorem C3_update_cache_policy (fs : FS) (m : CMaildir) :
    (m.m_imap = true → CMaildir.update_cache fs m = m) ∧
    (m.m_imap = false → CMaildir.last_modified fs m = m.m_modified →
      CMaildir.update_cache fs m = m) ∧
    (m.m_imap = false → CMaildir.last_modified fs m ≠ m.m_modified →
      (CMaildir.update_cache fs m).m_modified = CMaildir.last_modified fs m ∧
      (CMaildir.update_cache fs m).m_total = ((CMaildir.getMessages fs m).length : Int) ∧
      (CMaildir.update_cache fs m).m_unread =
        (((CMaildir.getMessages fs m).filter fun message => fs.is_new message.path).length : Int) ∧
      (CMaildir.update_cache fs m).m_path = m.m_path ∧
      (CMaildir.update_cache fs m).m_imap = m.m_imap) := by
  refine ⟨?_, ?_, ?_⟩
  · intro h
    simp [CMaildir.update_cache, h]
  · intro h hm
    simp [CMaildir.update_cache, h, hm]
  · intro h hm
    simp [CMaildir.update_cache, h, hm]

/-! ### C6 — last_modified -/

/-- C6: `last_modified` of a remote folder returns the stored `m_modified`
unchanged; for a local folder it returns the larger of the `stat` mtimes of
the `cur` and `new` subdirectories, an unstatable one contributing 0, so the
result is 0 when neither is accessible. -/
theorem C6_last_modified (fs : FS) (m : CMaildir) :
    (m.m_imap = true → CMaildir.last_modified fs m = m.m_modified) ∧
    (m.m_imap = false →
      CMaildir.last_modified fs m =
        max (((fs.statMtime (m.m_path ++ "/cur")).getD 0 : Nat) : Int)
            (((fs.statMtime (m.m_path ++ "/new")).getD 0 : Nat) : Int) ∧
      (fs.statMtime (m.m_path ++ "/cur") = none →
        fs.statMtime (m.m_path ++ "/new") = none →
        CMaildir.last_modified fs m = 0)) := by
  constructor
  · intro h
    simp [CMaildir.last_modified, h]
  · intro h
    rw [CMaildir.last_modified]
    simp only [h, Bool.false_eq_true, if_false, CMaildir.path, List.foldl]
    constructor
    · rcases hc : fs.statMtime (m.m_path ++ "/cur") with _ | tc <;>
        rcases hn : fs.statMtime (m.m_path ++ "/new") with _ | tn <;>
        simp [hc, hn] <;> (try split_ifs) <;> omega
    · intro hc hn
      simp [hc, hn]

/-! ### C5 — getMessages -/

/-- Accumulator form of the per-directory loop in `getMessages`. -/
theorem getMessages_push (fs : FS) (l : List String) (acc : List CMessage) :
    l.foldl
      (fun result file =>
        if ! fs.is_directory file then result ++ [⟨file⟩] else result) acc =
      acc ++ (l.filter fun file => ! fs.is_directory file).map (fun file => ⟨file⟩) := by
  induction l generalizing acc with
  | nil => simp
  | cons x xs ih =>
    simp only [List.foldl_cons, List.filter_cons]
    by_cases h : (! fs.is_directory x) = true
    · rw [if_pos h, if_pos h, ih]
      simp
    · rw [if_neg h, if_neg h, ih]

/-- C5: `getMessages` lists the entries of exactly the two subpaths `cur/`
and `new/`, keeps one message per entry that is not a directory (entries are
excluded solely by the is-directory test), and does not truncate: the
result length is the number of non-directory entries across the two
subdirectories. -/
theorem C5_getMessages (fs : FS) (m : CMaildir) :
    CMaildir.getMessages fs m =
      (((fs.entries (m.m_path ++ "/cur/")).filter fun file => ! fs.is_directory file) ++
        ((fs.entries (m.m_path ++ "/new/")).filter fun file => ! fs.is_directory file)).map
        (fun file => ⟨file⟩) ∧
    (CMaildir.getMessages fs m).length =
      ((fs.entries (m.m_path ++ "/cur/")).countP fun file => ! fs.is_directory file) +
        ((fs.entries (m.m_path ++ "/new/")).countP fun file => ! fs.is_directory file) := by
  have hrep : CMaildir.getMessages fs m =
      (((fs.entries (m.m_path ++ "/cur/")).filter fun file => ! fs.is_directory file) ++
        ((fs.entries (m.m_path ++ "/new/")).filter fun file => ! fs.is_directory file)).map
        (fun file => ⟨file⟩) := by
    rw [CMaildir.getMessages]
    simp only [List.foldl_cons, List.foldl_nil, getMessages_push, List.nil_append,
      List.map_append]
  refine ⟨hrep, ?_⟩
  rw [hrep]
  simp [List.countP_eq_length_filter]

/-! ### C8 — count queries and the scan budget -/

/-- The state component of the instrumented cache update is the plain
`update_cache`. -/
theorem update_cacheScans_fst (fs : FS) (m : CMaildir) :
    (CMaildir.update_cacheScans fs m).1 = CMaildir.update_cache fs m :=
  rfl

/-- A cache update performs at most one directory scan. -/
theorem update_cacheScans_le_one (fs : FS) (m : CMaildir) :
    (CMaildir.update_cacheScans fs m).2 ≤ 1 := by
  rw [CMaildir.update_cacheScans]
  dsimp only
  split_ifs <;> simp

/-- A cache update never changes the folder's identity fields. -/
theorem update_cache_frame (fs : FS) (m : CMaildir) :
    (CMaildir.update_cache fs m).m_path = m.m_path ∧
      (CMaildir.update_cache fs m).m_imap = m.m_imap := by
  by_cases h : m.m_imap = true
  · simp [CMaildir.update_cache, h]
  · by_cases hc : CMaildir.last_modified fs m = m.m_modified <;>
      simp [CMaildir.update_cache, h, hc]

/-- `last_modified` of a local folder depends only on the folder path. -/
theorem last_modified_congr (fs : FS) (m m' : CMaildir)
    (h : m.m_imap = false) (h' : m'.m_imap = false) (hp : m'.m_path = m.m_path) :
    CMaildir.last_modified fs m' = CMaildir.last_modified fs m := by
  rw [CMaildir.last_modified, CMaildir.last_modified,
    if_neg (by simp [h']), if_neg (by simp [h])]
  simp [CMaildir.path, hp]

/-- After a cache update of a local folder, the stored `m_modified` is the
folder's `last_modified`. -/
theorem update_cache_modified (fs : FS) (m : CMaildir) (h : m.m_imap = false) :
    (CMaildir.update_cache fs m).m_modified = CMaildir.last_modified fs m := by
  by_cases hc : CMaildir.last_modified fs m = m.m_modified <;>
    simp [CMaildir.update_cache, h, hc]

/-- Updating the cache of a local folder twice in a row: the second update
is a hit — it changes nothing and performs no scan. -/
theorem update_cacheScans_stable (fs : FS) (m : CMaildir) (h : m.m_imap = false) :
    CMaildir.update_cacheScans fs (CMaildir.update_cache fs m) =
      (CMaildir.update_cache fs m, 0) := by
  have hframe := update_cache_frame fs m
  have himap : (CMaildir.update_cache fs m).m_imap = false := by
    rw [hframe.2, h]
  have hlm : CMaildir.last_modified fs (CMaildir.update_cache fs m) =
      CMaildir.last_modified fs m :=
    last_modified_congr fs m _ h himap hframe.1
  have hmod := update_cache_modified fs m h
  have hupd : CMaildir.update_cache fs (CMaildir.update_cache fs m) =
      CMaildir.update_cache fs m := by
    rw [CMaildir.update_cache, if_neg (by simp [himap])]
    simp only [hlm, hmod, if_pos]
  rw [CMaildir.update_cacheScans, hupd]
  simp [himap, hlm, hmod]

/-- C8: `unread_messages` and `total_messages` each run one `update_cache`
and then return the corresponding cached integer, performing at most one
directory scan per call; and for a local folder (whose `last_modified` is
unchanged, the filesystem being fixed), an immediate second call to either
query performs zero additional scans and returns the same value. -/
theorem C8_count_queries (fs : FS) (m : CMaildir) :
    (CMaildir.unread_messages fs m).2.2 ≤ 1 ∧
    (CMaildir.total_messages fs m).2.2 ≤ 1 ∧
    (CMaildir.unread_messages fs m).1 = ((CMaildir.unread_messages fs m).2.1).m_unread ∧
    (CMaildir.unread_messages fs m).2.1 = CMaildir.update_cache fs m ∧
    (CMaildir.total_messages fs m).1 = ((CMaildir.total_messages fs m).2.1).m_total ∧
    (CMaildir.total_messages fs m).2.1 = CMaildir.update_cache fs m ∧
    (m.m_imap = false →
      (CMaildir.unread_messages fs ((CMaildir.unread_messages fs m).2.1)).2.2 = 0 ∧
      (CMaildir.unread_messages fs ((CMaildir.unread_messages fs m).2.1)).1 =
        (CMaildir.unread_messages fs m).1 ∧
      (CMaildir.total_messages fs ((CMaildir.total_messages fs m).2.1)).2.2 = 0 ∧
      (CMaildir.total_messages fs ((CMaildir.total_messages fs m).2.1)).1 =
        (CMaildir.total_messages fs m).1) := by
  refine ⟨update_cacheScans_le_one fs m, update_cacheScans_le_one fs m, rfl, rfl, rfl, rfl, ?_⟩
  intro h
  have hstable := update_cacheScans_stable fs m h
  refine ⟨?_, ?_, ?_, ?_⟩ <;>
    simp only [CMaildir.unread_messages, CMaildir.total_messages,
      update_cacheScans_fst, hstable]

/-! ### C7 — generate_filename error handling and uniqueness -/

/-- Anatomy of a successful run of the uniqueness loop: the returned path
is one of the drawn candidates, it does not exist, and every earlier
candidate existed. -/
theorem genLoop_some (fs : FS) (env : GenEnv) (host dir : String) (is_new : Bool) :
    ∀ (fuel k : Nat) (p : String), genLoop fs env host dir is_new fuel k = some p →
      fs.fileExists p = false ∧
      ∃ i, k ≤ i ∧ p = dir ++ mkFilename host is_new (env.timeAt i) (env.randAt i) ∧
        ∀ j, k ≤ j → j < i →
          fs.fileExists (dir ++ mkFilename host is_new (env.timeAt j) (env.randAt j)) = true := by
  intro fuel
  induction fuel with
  | zero =>
    intro k p hp
    exact absurd hp (by simp [genLoop])
  | succ fuel ih =>
    intro k p hp
    rw [genLoop] at hp
    by_cases h : fs.fileExists (dir ++ mkFilename host is_new (env.timeAt k) (env.randAt k)) = true
    · rw [if_pos h] at hp
      obtain ⟨hnf, i, hki, hpi, hall⟩ := ih (k + 1) p hp
      refine ⟨hnf, i, by omega, hpi, fun j hj hji => ?_⟩
      rcases Nat.eq_or_lt_of_le hj with hj' | hj'
      · rw [← hj']
        exact h
      · exact hall j hj' hji
    · rw [if_neg h] at hp
      cases hp
      exact ⟨Bool.eq_false_iff.mpr h, k, Nat.le_refl k, rfl, fun j hj hji => by omega⟩

/-- C7: `generate_filename` returns the explicit empty result whenever the
folder path fails the external maildir validity check; otherwise any path
it returns is the target directory plus a generated candidate that does not
exist at the moment it is returned, every earlier draw having existed. -/
theorem C7_generate_filename (fs : FS) (env : GenEnv) (host : String)
    (m : CMaildir) (is_new : Bool) (fuel : Nat) :
    (fs.is_maildir m.m_path = false →
      CMaildir.generate_filename fs env host m is_new fuel = some "") ∧
    (∀ p, fs.is_maildir m.m_path = true →
      CMaildir.generate_filename fs env host m is_new fuel = some p →
      fs.fileExists p = false ∧
      ∃ i, p = (m.m_path ++ if is_new then "/new/" else "/cur/") ++
            mkFilename host is_new (env.timeAt i) (env.randAt i) ∧
        ∀ j < i,
          fs.fileExists ((m.m_path ++ if is_new then "/new/" else "/cur/") ++
            mkFilename host is_new (env.timeAt j) (env.randAt j)) = true) := by
  constructor
  · intro h
    rw [CMaildir.generate_filename, if_pos (by simp [CMaildir.path, h])]
  · intro p h hp
    rw [CMaildir.generate_filename, if_neg (by simp [CMaildir.path, h])] at hp
    obtain ⟨hnf, i, _, hpi, hall⟩ :=
      genLoop_some fs env host (m.m_path ++ if is_new then "/new/" else "/cur/")
        is_new fuel 0 p hp
    exact ⟨hnf, i, hpi, fun j hj => hall j (Nat.zero_le j) hj⟩

/-- C7 witness: under `fsA`, the folder `/not` fails the validity check and
gets the empty result, while the valid folder `/m` gets a fresh
non-existing path from the first draw. -/
theorem C7_witness :
    fsA.is_maildir mNotMaildir.m_path = false ∧
    CMaildir.generate_filename fsA envGen "h" mNotMaildir false 1 = some "" ∧
    fsA.is_maildir mA.m_path = true ∧
    CMaildir.generate_filename fsA envGen "h" mA false 1 = some "/m/cur/100.h1005:2,S" ∧
    fsA.fileExists "/m/cur/100.h1005:2,S" = false ∧
    ∃ i, "/m/cur/100.h1005:2,S" = (mA.m_path ++ if false then "/new/" else "/cur/") ++
          mkFilename "h" false (envGen.timeAt i) (envGen.randAt i) ∧
      ∀ j < i,
        fsA.fileExists ((mA.m_path ++ if false then "/new/" else "/cur/") ++
          mkFilename "h" false (envGen.timeAt j) (envGen.randAt j)) = true := by
  have h1 := (C7_generate_filename fsA envGen "h" mNotMaildir false 1).1 (by decide)
  have h2 := (C7_generate_filename fsA envGen "h" mA false 1).2 "/m/cur/100.h1005:2,S"
    (by decide) (by decide)
  exact ⟨by decide, h1, by decide, by decide, h2.1, h2.2⟩

/-! ### C4 — the generated name against the spec template -/

set_option maxRecDepth 40000 in
/-- No random value below 1000 makes the literal spec template produce the
name the code builds from time 100, host `h` and raw random 5. -/
theorem C4_no_template_match :
    ((List.range 1000).all fun r =>
      !(("100.h1005:2,S" : String) ==
        toString 100 ++ "." ++ "h" ++ toString r ++ ":2," ++
          (if false then "N" else "S"))) = true := by
  decide

/-- C4 counterexample: with the clock at 100 and raw random 5, the first
generated name for `is_new = false` is `100.h1005:2,S` — the epoch digits
are duplicated in front of the random digits — and that name does not match
the spec's literal template for time 100. -/
theorem C4_counterexample :
    CMaildir.generate_filename fsGen envGen "h" mA false 1 =
      some "/m/cur/100.h1005:2,S" ∧
    ¬ specNameTemplate 100 "h" false "100.h1005:2,S" := by
  constructor
  · rfl
  · rintro ⟨r, hr, heq⟩
    have h := List.all_eq_true.mp C4_no_template_match r (List.mem_range.mpr hr)
    rw [Bool.not_eq_eq_eq_not, Bool.not_true, beq_eq_false_iff_ne] at h
    exact h heq

/-- C4 amended: every name `generate_filename` returns for a valid folder
is placed under `new/` when `is_new` and `cur/` otherwise, and matches
`<seconds>.<hostname><seconds><random-0..999>:2,<flag>` — the epoch-seconds
digits are repeated immediately before the random digits (the stream reuse
the spec notes in section 4.5) — with flag `N` when `is_new` and `S`
otherwise. -/
theorem C4_amended_template (fs : FS) (env : GenEnv) (host : String)
    (m : CMaildir) (is_new : Bool) (fuel : Nat) (p : String)
    (hmd : fs.is_maildir m.m_path = true)
    (hp : CMaildir.generate_filename fs env host m is_new fuel = some p) :
    ∃ i r, r < 1000 ∧
      p = m.m_path ++ (if is_new then "/new/" else "/cur/") ++
        (toString (env.timeAt i) ++ "." ++ host ++
          (toString (env.timeAt i) ++ toString r) ++ ":2," ++
          (if is_new then "N" else "S")) := by
  rw [CMaildir.generate_filename, if_neg (by simp [CMaildir.path, hmd])] at hp
  obtain ⟨hnf, i, _, hpi, _⟩ :=
    genLoop_some fs env host (m.m_path ++ (if is_new then "/new/" else "/cur/"))
      is_new fuel 0 p hp
  refine ⟨i, env.randAt i % 1000, Nat.mod_lt _ (by norm_num), ?_⟩
  rw [hpi]
  have hname : mkFilename host is_new (env.timeAt i) (env.randAt i) =
      toString (env.timeAt i) ++ "." ++ host ++
        (toString (env.timeAt i) ++ toString (env.randAt i % 1000)) ++ ":2," ++
        (if is_new then "N" else "S") := by
    rw [mkFilename]
    cases is_new
    · have hS : (":2" : String) ++ ",S" = ":2," ++ "S" := rfl
      simp only [Bool.false_eq_true, if_false, String.append_assoc]
      rw [hS]
    · have hN : (":2" : String) ++ ",N" = ":2," ++ "N" := rfl
      simp only [if_pos, String.append_assoc]
      rw [hN]
  rw [hname, String.append_assoc]

/-- C4 witness for the amended template: the concrete run of the
counterexample environment satisfies the amended shape. -/
theorem C4_amended_witness :
    fsGen.is_maildir mA.m_path = true ∧
    CMaildir.generate_filename fsGen envGen "h" mA false 1 =
      some "/m/cur/100.h1005:2,S" ∧
    ∃ i r, r < 1000 ∧
      ("/m/cur/100.h1005:2,S" : String) =
        mA.m_path ++ (if false then "/new/" else "/cur/") ++
          (toString (envGen.timeAt i) ++ "." ++ "h" ++
            (toString (envGen.timeAt i) ++ toString r) ++ ":2," ++
            (if false then "N" else "S")) :=
  ⟨rfl, rfl, C4_amended_template fsGen envGen "h" mA false 1 "/m/cur/100.h1005:2,S" rfl rfl⟩

/-! ### C10 — remote folders return counts nothing ever assigns -/

/-- `saveMessage` never changes the folder state, whichever branch it
takes. -/
theorem saveMessage_state (fs : FS) (env : GenEnv) (host : String)
    (m : CMaildir) (msg : CMessage) (fuel : Nat) (out : Bool × List String × CMaildir)
    (h : CMaildir.saveMessage fs env host m msg fuel = some out) : out.2.2 = m := by
  rw [CMaildir.saveMessage] at h
  split_ifs at h
  · cases h
    rfl
  · revert h
    cases CMaildir.generate_filename fs env host m false fuel with
    | none => intro h; exact absurd h (by simp)
    | some p => intro h; cases h; rfl

/-- On a remote folder every single store operation keeps the flag and
leaves `m_total` and `m_unread` untouched. -/
theorem applyOp_remote_frame (fs : FS) (env : GenEnv) (host : String)
    (m : CMaildir) (op : MOp) (h : m.m_imap = true) :
    (applyOp fs env host m op).m_imap = true ∧
    (applyOp fs env host m op).m_total = m.m_total ∧
    (applyOp fs env host m op).m_unread = m.m_unread := by
  cases op with
  | update => simp [applyOp, CMaildir.update_cache, h]
  | bump => simp [applyOp, CMaildir.bump_mtime, h]
  | unreadQ =>
    simp [applyOp, CMaildir.unread_messages, CMaildir.update_cacheScans,
      CMaildir.update_cache, h]
  | totalQ =>
    simp [applyOp, CMaildir.total_messages, CMaildir.update_cacheScans,
      CMaildir.update_cache, h]
  | save msg fuel =>
    have hkeep : applyOp fs env host m (MOp.save msg fuel) = m := by
      rw [applyOp]
      cases hsm : CMaildir.saveMessage fs env host m msg fuel with
      | none => rfl
      | some out => exact saveMessage_state fs env host m msg fuel out hsm
    rw [hkeep]
    exact ⟨h, rfl, rfl⟩

/-- Iterated form of `applyOp_remote_frame` over a whole operation
sequence. -/
theorem runOps_remote_frame (fs : FS) (env : GenEnv) (host : String)
    (ops : List MOp) :
    ∀ m : CMaildir, m.m_imap = true →
      (runOps fs env host m ops).m_imap = true ∧
      (runOps fs env host m ops).m_total = m.m_total ∧
      (runOps fs env host m ops).m_unread = m.m_unread := by
  induction ops with
  | nil => exact fun m h => ⟨h, rfl, rfl⟩
  | cons op ops ih =>
    intro m h
    have hstep := applyOp_remote_frame fs env host m op h
    have hrest := ih (applyOp fs env host m op) hstep.1
    rw [runOps, List.foldl_cons]
    exact ⟨hrest.1, hrest.2.1.trans hstep.2.1, hrest.2.2.trans hstep.2.2⟩

/-- C10: a folder constructed remote starts with `m_modified = -1` and with
`m_total`/`m_unread` holding whatever indeterminate values the constructor
never overwrote; no sequence of store operations ever assigns them, and
`total_messages`/`unread_messages` simply hand those unassigned values
back. -/
theorem C10_remote_counts_unassigned (fs : FS) (env : GenEnv) (host : String)
    (name : String) (total0 unread0 : Int) (ops : List MOp) :
    (CMaildir.init name false total0 unread0).m_imap = true ∧
    (CMaildir.init name false total0 unread0).m_modified = -1 ∧
    (runOps fs env host (CMaildir.init name false total0 unread0) ops).m_total = total0 ∧
    (runOps fs env host (CMaildir.init name false total0 unread0) ops).m_unread = unread0 ∧
    (CMaildir.total_messages fs
      (runOps fs env host (CMaildir.init name false total0 unread0) ops)).1 = total0 ∧
    (CMaildir.unread_messages fs
      (runOps fs env host (CMaildir.init name false total0 unread0) ops)).1 = unread0 := by
  have hinit : (CMaildir.init name false total0 unread0).m_imap = true := rfl
  have hrun := runOps_remote_frame fs env host ops (CMaildir.init name false total0 unread0) hinit
  refine ⟨hinit, rfl, hrun.2.1, hrun.2.2, ?_, ?_⟩
  · show (CMaildir.update_cache fs
        (runOps fs env host (CMaildir.init name false total0 unread0) ops)).m_total = total0
    rw [CMaildir.update_cache, if_pos hrun.1, hrun.2.1]
    rfl
  · show (CMaildir.update_cache fs
        (runOps fs env host (CMaildir.init name false total0 unread0) ops)).m_unread = unread0
    rw [CMaildir.update_cache, if_pos hrun.1, hrun.2.2]
    rfl

/-! ### Witnesses at the concrete filesystem `fsA` -/

/-- C3 witness: the remote folder is untouched; the matching local cache is
a hit and unchanged; the stale local cache at `/m` is refreshed from the
enumeration. -/
theorem C3_witness :
    CMaildir.update_cache fsA mRemoteB = mRemoteB ∧
    CMaildir.update_cache fsA mHitA = mHitA ∧
    (CMaildir.update_cache fsA mA).m_modified = CMaildir.last_modified fsA mA ∧
    (CMaildir.update_cache fsA mA).m_total = ((CMaildir.getMessages fsA mA).length : Int) ∧
    (CMaildir.update_cache fsA mA).m_unread =
      (((CMaildir.getMessages fsA mA).filter fun message => fsA.is_new message.path).length : Int) ∧
    (CMaildir.update_cache fsA mA).m_path = mA.m_path ∧
    (CMaildir.update_cache fsA mA).m_imap = mA.m_imap := by
  have hmiss := (C3_update_cache_policy fsA mA).2.2 rfl (by decide)
  exact ⟨(C3_update_cache_policy fsA mRemoteB).1 rfl,
    (C3_update_cache_policy fsA mHitA).2.1 rfl (by decide),
    hmiss.1, hmiss.2.1, hmiss.2.2.1, hmiss.2.2.2.1, hmiss.2.2.2.2⟩

/-- C6 witness: the remote folder returns its stored `m_modified`; the
local folder `/m` returns the larger of its two subdirectory mtimes; a
folder with no statable subdirectories returns 0. -/
theorem C6_witness :
    CMaildir.last_modified fsA mRemoteB = mRemoteB.m_modified ∧
    CMaildir.last_modified fsA mA =
      max (((fsA.statMtime (mA.m_path ++ "/cur")).getD 0 : Nat) : Int)
          (((fsA.statMtime (mA.m_path ++ "/new")).getD 0 : Nat) : Int) ∧
    CMaildir.last_modified fsA mNoDirs = 0 :=
  ⟨(C6_last_modified fsA mRemoteB).1 rfl,
    ((C6_last_modified fsA mA).2 rfl).1,
    ((C6_last_modified fsA mNoDirs).2 rfl).2 (by decide) (by decide)⟩

/-- C8 witness: at `/m` under `fsA`, the first unread query scans at most
once, and the immediate second query scans zero times and returns the same
value. -/
theorem C8_witness :
    (CMaildir.unread_messages fsA mA).2.2 ≤ 1 ∧
    (CMaildir.unread_messages fsA ((CMaildir.unread_messages fsA mA).2.1)).2.2 = 0 ∧
    (CMaildir.unread_messages fsA ((CMaildir.unread_messages fsA mA).2.1)).1 =
      (CMaildir.unread_messages fsA mA).1 := by
  have h := (C8_count_queries fsA mA).2.2.2.2.2.2 rfl
  exact ⟨(C8_count_queries fsA mA).1, h.1, h.2.1⟩
